import Mathlib

/-!
Verification of the client-side graph synchronization engine of the
node-graph editor (`src/NodeGraph.tsx`).

The development shallowly embeds the parts of the source the properties
speak about:

* JavaScript record values are modelled by `JVal` (the code only
  dispatches on `typeof` of scalar values) and association lists `Rec`;
  object spread `\x7b ...a, ...b \x7d` is `mergeRec`.
* Function-valued fields attached to a mirror node (`onDelete`,
  `onParamChange`, ...) are modelled as opaque numeric handles: the code
  never inspects them, it only stores and copies them.
* Numbers are modelled as integers: no property here depends on
  fractional or non-finite values, only on `typeof v === "number"`
  dispatch.
* `null`/`undefined`/absent distinctions that the code observes through
  truthiness are modelled by `Option` plus the `truthyS` predicate
  (JavaScript's empty string is falsy, which `truthyS` reproduces).
-/

/-- Scalar JavaScript value, as dispatched on by `typeof` in the source. -/
inductive JVal where
  | vnull
  | vbool (b : Bool)
  | vnum (n : Int)
  | vstr (s : String)
deriving DecidableEq

/-- A JavaScript object as an ordered association list (insertion order). -/
abbrev Rec := List (String × JVal)

/-- First-match field lookup on a record. -/
def lookupRec (r : Rec) (k : String) : Option JVal :=
  match r with
  | [] => none
  | (k₁, v) :: rest => if k₁ = k then some v else lookupRec rest k

/-- Object spread `\x7b ...a, ...b \x7d`: keys of `a` keep their position but
take `b`'s value when `b` also has the key; keys only in `b` follow. -/
def mergeRec (a b : Rec) : Rec :=
  a.map (fun kv =>
    match lookupRec b kv.1 with
    | some v => (kv.1, v)
    | none => kv)
  ++ b.filter (fun kv => (lookupRec a kv.1).isNone)

/-- Rest-destructuring `const \x7b k1, k2, ...rest \x7d = r`: drop the listed keys. -/
def removeKeys (ks : List String) (r : Rec) : Rec :=
  r.filter (fun kv => !(ks.contains kv.1))

/-- JavaScript truthiness of a nullable string (`null`, `undefined` and `""` are falsy). -/
def truthyS : Option String → Bool
  | none => false
  | some s => s != ""

/-- Read a field as a string, the `typeof v === "string"` pattern. -/
def asStr : Option JVal → Option String
  | some (JVal.vstr s) => some s
  | _ => none

/-- Read a field as a number, the `typeof v === "number"` pattern. -/
def asNum : Option JVal → Option Int
  | some (JVal.vnum n) => some n
  | _ => none

/-- Read a field as a boolean, the `typeof v === "boolean"` pattern. -/
def asBool : Option JVal → Option Bool
  | some (JVal.vbool b) => some b
  | _ => none

/-! ## Handle-Direction codec (`mapHandleToDir`, `dirToSourceHandle`, `dirToTargetHandle`) -/

/-- JavaScript `String.prototype.includes`: substring containment. -/
def jsIncludes (s sub : String) : Bool :=
  s.toList.tails.any (fun t => sub.toList.isPrefixOf t)

/-- `mapHandleToDir` from the source: decode a handle id to a direction,
falling back to `"right"` for an absent, empty or unrecognized handle. -/
def mapHandleToDir (handleId : Option String) : String :=
  match handleId with
  | none => "right"
  | some hid =>
    if hid = "" then "right"
    else if jsIncludes hid "top" then "up"
    else if jsIncludes hid "bottom" then "down"
    else if jsIncludes hid "left" then "left"
    else if jsIncludes hid "right" then "right"
    else "right"

/-- `dirToSourceHandle` from the source (`switch` with default `right`). -/
def dirToSourceHandle (dir : String) : String :=
  if dir = "up" then "io-top-source"
  else if dir = "down" then "io-bottom-source"
  else if dir = "left" then "io-left-source"
  else "io-right-source"

/-- `dirToTargetHandle` from the source (`switch` with default `right`). -/
def dirToTargetHandle (dir : String) : String :=
  if dir = "up" then "io-top-target"
  else if dir = "down" then "io-bottom-target"
  else if dir = "left" then "io-left-target"
  else "io-right-target"

/-! ## Resource Registry (`normalizeResources`) -/

/-- A resource kind entry, `\x7b name, color \x7d`. -/
structure ResourceItem where
  name : String
  color : String
deriving DecidableEq

/-- The sentinel resource, `NOTHING_RESOURCE` in the source. -/
def NOTHING_RESOURCE : ResourceItem := { name := "nothing", color := "#000000" }

/-- An element of a list-shaped resource payload: a plain object (with
fields), an array (truthy, `typeof` object, but without a `name` field), or
a primitive/null value (skipped by the `!it \x7c\x7c typeof it !== "object"` guard). -/
inductive RItem where
  | robj (fields : Rec)
  | rarr
  | rprim (v : JVal)
deriving DecidableEq

/-- A raw `/resource/all` payload: mapping-shaped, list-shaped, or neither. -/
inductive RPayload where
  | rmap (fields : Rec)
  | rlist (items : List RItem)
  | rother
deriving DecidableEq

/-- The per-item decoding of the list branch of `normalizeResources`:
`name` (falling back to the legacy field), skipped when empty; `color`
(falling back to the legacy field), defaulted when empty or non-string. -/
def itemToResource : RItem → Option ResourceItem
  | RItem.robj fields =>
    let name :=
      match asStr (lookupRec fields "name") with
      | some s => s
      | none =>
        match asStr (lookupRec fields "название") with
        | some s => s
        | none => ""
    let color :=
      match asStr (lookupRec fields "color") with
      | some s => s
      | none =>
        match asStr (lookupRec fields "hex цвет") with
        | some s => s
        | none => ""
    if name = "" then none
    else some { name := name, color := if color = "" then "#000000" else color }
  | RItem.rarr => none
  | RItem.rprim _ => none

/-- The collection loops of `normalizeResources`, before the sentinel
fix-up: mapping entries in order (color defaulted when non-string or
empty), list items in order through `itemToResource`, nothing otherwise. -/
def collectResources : RPayload → List ResourceItem
  | RPayload.rmap fields =>
    fields.map (fun kv =>
      let hex := match kv.2 with | JVal.vstr s => s | _ => "#000000"
      { name := kv.1, color := if hex = "" then "#000000" else hex })
  | RPayload.rlist items => items.filterMap itemToResource
  | RPayload.rother => []

/-- `normalizeResources` from the source: collect, then ensure the sentinel
is present exactly once and first (`unshift` when absent, filter-and-rebuild
when present). -/
def normalizeResources (payload : RPayload) : List ResourceItem :=
  let out := collectResources payload
  if out.any (fun r => r.name == NOTHING_RESOURCE.name) then
    NOTHING_RESOURCE :: out.filter (fun r => r.name != "nothing")
  else
    NOTHING_RESOURCE :: out

/-! ## Backend entities and the node mapper (`mapBackendNodeToData`) -/

/-- A backend node snapshot: `uid`, optional top-level `name`, and the
`data` record (which carries `archetype`, optional `name`, `x`, `y`,
`rolled`, resources and arbitrary further parameters). -/
structure BackendNode where
  uid : String
  name : Option String
  data : Rec
deriving DecidableEq

/-- A backend connection snapshot. -/
structure BackendConnection where
  uid : String
  parent : String
  child : String
  parent_dir : String
  child_dir : String
  resource : Option String
  planned_flow : Option Int
  actual_flow : Option Int
  flow_multiplier : Option Int
deriving DecidableEq

/-- Result of `mapBackendNodeToData`. -/
structure MappedNode where
  label : Option String
  archetype : Option String
  params : Rec
deriving DecidableEq

/-- `mapBackendNodeToData` from the source: strip `archetype`, `connections`,
`x`, `y`; default `rolled`/`in_resource`/`out_resource`/`in_per_out` when
absent or of the wrong type (spread order lets a present field win); derive
the label from `data.name` falling back to the top-level `name`, trimmed,
empty treated as absent; prepend the `uid` parameter. -/
def mapBackendNodeToData (backend : BackendNode) : MappedNode :=
  let archetype := asStr (lookupRec backend.data "archetype")
  let rest0 := removeKeys ["archetype", "connections"] backend.data
  let rest := removeKeys ["x", "y"] rest0
  let normalized := mergeRec
    [("rolled", JVal.vbool ((asBool (lookupRec rest "rolled")).getD false)),
     ("in_resource", JVal.vstr ((asStr (lookupRec rest "in_resource")).getD "nothing")),
     ("out_resource", JVal.vstr ((asStr (lookupRec rest "out_resource")).getD "nothing")),
     ("in_per_out", JVal.vnum ((asNum (lookupRec rest "in_per_out")).getD 1))]
    rest
  let nameCandidate :=
    match asStr (lookupRec backend.data "name") with
    | some s => some s
    | none => backend.name
  let labelFromApi :=
    match nameCandidate with
    | some s => if s.trim = "" then none else some s.trim
    | none => none
  { label := labelFromApi,
    archetype := archetype,
    params := mergeRec [("uid", JVal.vstr backend.uid)] normalized }

/-! ## Mirror entities -/

/-- The `data` payload of a mirror node (`CustomNodeData`). The
function-valued fields are modelled as opaque handles (`Option Nat`): the
engine only stores and copies them. -/
structure NodeData where
  label : String
  archetype : Option String
  params : Rec
  onDelete : Option Nat
  onParamChange : Option Nat
  onLabelChange : Option Nat
  onArchetypeChange : Option Nat
  requestResources : Option Nat
  getResourceColor : Option Nat
  resourceOptions : List ResourceItem
deriving DecidableEq

/-- A mirror node (`Node<CustomNodeData>`), position flattened to `x`/`y`. -/
structure RFNode where
  id : String
  x : Int
  y : Int
  data : NodeData
deriving DecidableEq

/-- A mirror edge (`Edge`): id, endpoints, nullable handles, and the
flow data record attached by the world loader. -/
structure REdge where
  id : String
  source : String
  target : String
  sourceHandle : Option String
  targetHandle : Option String
  edata : Rec
deriving DecidableEq

/-- A server request issued by a mirror operation. -/
inductive ApiRequest where
  | connectionRemove (uid : String)
  | nodeRemove (uid : String)
  | connectionAdd (uid parent child pdir cdir : String)
  | nodeAdd (uid archetype : String) (x y : Int) (name : String)
deriving DecidableEq

/-- The success-merge shared by `handleParamChange`, `handleLabelChange`,
`handleArchetypeChange`, `handleAddNode` and `handleTick`: overlay the
mapped server snapshot onto the existing node, spreading the old `data`
and merging `params`. -/
def mergeServerNode (n : RFNode) (mapped : MappedNode) : RFNode :=
  { n with data := { n.data with
      label := mapped.label.getD n.data.label,
      archetype := mapped.archetype,
      params := mergeRec n.data.params mapped.params } }

/-- The `setNodes` mapping of `handleParamChange` on a success response:
merge the mapped backend node into every node whose id matches. -/
def handleParamChangeSuccess (uid : String) (backendNode : BackendNode)
    (nodes : List RFNode) : List RFNode :=
  nodes.map (fun n =>
    if n.id = uid then mergeServerNode n (mapBackendNodeToData backendNode) else n)

/-- The per-node step of `handleTick`: find the snapshot with the node's
id; absent means the node is returned untouched. -/
def tickMergeOne (payload : List BackendNode) (node : RFNode) : RFNode :=
  match payload.find? (fun b => b.uid == node.id) with
  | none => node
  | some b => mergeServerNode node (mapBackendNodeToData b)

/-- The `setNodes` mapping of `handleTick` on a success response. -/
def handleTickSuccess (payload : List BackendNode) (nodes : List RFNode) : List RFNode :=
  nodes.map (tickMergeOne payload)

/-- `handleDeleteNode` from the source: filter out touched edges and the
node from the mirror, and return the requests it then issues — one
`/connection/remove` per cascaded edge followed by one `/node/remove`.
The mirror components are computed before any request is dispatched. -/
def handleDeleteNode (uid : String) (nodes : List RFNode) (edges : List REdge) :
    List RFNode × List REdge × List ApiRequest :=
  let edgesToRemove := edges.filter (fun e => e.source == uid || e.target == uid)
  let newEdges := edges.filter (fun e => e.source != uid && e.target != uid)
  let newNodes := nodes.filter (fun n => n.id != uid)
  (newNodes, newEdges,
    edgesToRemove.map (fun e => ApiRequest.connectionRemove e.id)
      ++ [ApiRequest.nodeRemove uid])

/-! ## Connect (`onConnect`) -/

/-- A ReactFlow `Connection`: all four endpoint fields are nullable. -/
structure ConnInput where
  source : Option String
  target : Option String
  sourceHandle : Option String
  targetHandle : Option String
deriving DecidableEq

/-- `hasSourceConflict` of `onConnect`: both the source node id and the
source handle are truthy and some edge already uses the same pair. -/
def hasSourceConflict (edges : List REdge) (c : ConnInput) : Bool :=
  truthyS c.source && truthyS c.sourceHandle &&
    edges.any (fun e => some e.source == c.source && e.sourceHandle == c.sourceHandle)

/-- `hasTargetConflict` of `onConnect`, symmetric to the source check. -/
def hasTargetConflict (edges : List REdge) (c : ConnInput) : Bool :=
  truthyS c.target && truthyS c.targetHandle &&
    edges.any (fun e => some e.target == c.target && e.targetHandle == c.targetHandle)

/-- `connectionExists` of the `addEdge` helper of the rendering library
(reactflow, a dependency of this repository): an edge with the same
endpoints and the same (or equally absent) handles already exists. -/
def connectionExistsB (edges : List REdge) (c : ConnInput) : Bool :=
  edges.any (fun el =>
    some el.source == c.source && some el.target == c.target &&
    (el.sourceHandle == c.sourceHandle || (!(truthyS el.sourceHandle) && !(truthyS c.sourceHandle))) &&
    (el.targetHandle == c.targetHandle || (!(truthyS el.targetHandle) && !(truthyS c.targetHandle))))

/-- `addEdge` of the rendering library (reactflow, a dependency of this
repository): refuse a connection without truthy endpoints, refuse an exact
duplicate, otherwise append the new edge. -/
def addEdgeLib (uid : String) (c : ConnInput) (edges : List REdge) : List REdge :=
  match c.source, c.target with
  | some s, some t =>
    if s == "" || t == "" then edges
    else if connectionExistsB edges c then edges
    else edges ++ [{ id := uid, source := s, target := t,
                     sourceHandle := c.sourceHandle, targetHandle := c.targetHandle,
                     edata := [] }]
  | _, _ => edges

/-- The outcome of `onConnect`: the new edge list, the `/connection/add`
request if one is issued, and whether the occupied-anchor warning fired. -/
structure ConnectResult where
  edges : List REdge
  request : Option ApiRequest
  warned : Bool
deriving DecidableEq

/-- `onConnect` from the source: check both anchor-occupancy conflicts
first and bail out with a warning; otherwise add the edge optimistically
(via the library `addEdge`) and, when both endpoint ids are truthy, issue
`/connection/add` with both directions encoded by `mapHandleToDir`. -/
def onConnect (uid : String) (edges : List REdge) (c : ConnInput) : ConnectResult :=
  if hasSourceConflict edges c || hasTargetConflict edges c then
    { edges := edges, request := none, warned := true }
  else
    let newEdges := addEdgeLib uid c edges
    let request :=
      match c.source, c.target with
      | some s, some t =>
        if s != "" && t != "" then
          some (ApiRequest.connectionAdd uid s t
            (mapHandleToDir c.sourceHandle) (mapHandleToDir c.targetHandle))
        else none
      | _, _ => none
    { edges := newEdges, request := request, warned := false }

/-! ## World loader (`loadWorld`) -/

/-- The opaque handles standing for the callback functions `loadWorld`
attaches to every materialized node. -/
def stdOnDelete : Option Nat := some 1

/-- Opaque handle for the attached `onParamChange` callback. -/
def stdOnParamChange : Option Nat := some 2

/-- Opaque handle for the attached `onLabelChange` callback. -/
def stdOnLabelChange : Option Nat := some 3

/-- Opaque handle for the attached `onArchetypeChange` callback. -/
def stdOnArchetypeChange : Option Nat := some 4

/-- Opaque handle for the attached `requestResources` callback. -/
def stdRequestResources : Option Nat := some 5

/-- Opaque handle for the attached `getResourceColor` closure. -/
def stdGetResourceColor : Option Nat := some 6

/-- The per-node materialization of `loadWorld`: map the backend node,
default the label, keep numeric `x`/`y` or fall back to the deterministic
grid position derived from the node's index in the response array. -/
def loadNode (resList : List ResourceItem) (idx : Nat) (bn : BackendNode) : RFNode :=
  let mapped := mapBackendNodeToData bn
  { id := bn.uid,
    x := (asNum (lookupRec bn.data "x")).getD (120 + (Int.ofNat (idx % 5)) * 280),
    y := (asNum (lookupRec bn.data "y")).getD (120 + (Int.ofNat (idx / 5)) * 240),
    data := { label := mapped.label.getD "Нода",
              archetype := mapped.archetype,
              params := mapped.params,
              onDelete := stdOnDelete,
              onParamChange := stdOnParamChange,
              onLabelChange := stdOnLabelChange,
              onArchetypeChange := stdOnArchetypeChange,
              requestResources := stdRequestResources,
              getResourceColor := stdGetResourceColor,
              resourceOptions := resList } }

/-- The indexed map over the `/node/all` array (`allNodes.map((bn, idx) => ...)`). -/
def loadNodesGo (resList : List ResourceItem) (idx : Nat) :
    List BackendNode → List RFNode
  | [] => []
  | bn :: rest => loadNode resList idx bn :: loadNodesGo resList (idx + 1) rest

/-- The full node materialization of `loadWorld`. -/
def loadNodes (resList : List ResourceItem) (allNodes : List BackendNode) : List RFNode :=
  loadNodesGo resList 0 allNodes

/-- The per-connection materialization of `loadWorld`: reconstruct both
handles from the stored directions and default the flow data. -/
def loadEdge (c : BackendConnection) : REdge :=
  { id := c.uid,
    source := c.parent,
    target := c.child,
    sourceHandle := some (dirToSourceHandle c.parent_dir),
    targetHandle := some (dirToTargetHandle c.child_dir),
    edata := [("resource", JVal.vstr (c.resource.getD "nothing")),
              ("planned_flow", JVal.vnum (c.planned_flow.getD 0)),
              ("actual_flow", JVal.vnum (c.actual_flow.getD 0)),
              ("flow_multiplier", JVal.vnum (c.flow_multiplier.getD 1))] }

/-- The full edge materialization of `loadWorld`. -/
def loadEdges (cs : List BackendConnection) : List REdge :=
  cs.map loadEdge

/-- The loader-visible mirror: the load-generation counter
(`loadTokenRef`) plus the node and edge sets. -/
structure LoaderMirror where
  loadToken : Nat
  nodes : List RFNode
  edges : List REdge
deriving DecidableEq

/-- The synchronous prefix of `loadWorld`: bump the generation counter
(`const token = ++loadTokenRef.current`) and remember the bumped token. -/
def startLoad (s : LoaderMirror) : Nat × LoaderMirror :=
  (s.loadToken + 1, { s with loadToken := s.loadToken + 1 })

/-- The completion of a `loadWorld` call whose fetches resolved: the
staleness check `token !== loadTokenRef.current` discards a superseded
load; a current load replaces both mirror sets with the decoded data. -/
def finishLoad (token : Nat) (resList : List ResourceItem)
    (ns : List BackendNode) (cs : List BackendConnection)
    (s : LoaderMirror) : LoaderMirror :=
  if token == s.loadToken then
    { s with nodes := loadNodes resList ns, edges := loadEdges cs }
  else s

/-! ## Optimistic mutations and their transport-failure continuations -/

/-- The whole mirror together with the console log, for the
failure-handling contracts. -/
structure GraphMirror where
  nodes : List RFNode
  edges : List REdge
  log : List String
deriving DecidableEq

/-- The optimistic node built by `handleAddNode` before the network call. -/
def optimisticNode (uid : String) (x y : Int) (resources : List ResourceItem) : RFNode :=
  { id := uid,
    x := x,
    y := y,
    data := { label := "Нода",
              archetype := some "генератор",
              params := [("uid", JVal.vstr uid),
                         ("archetype", JVal.vstr "генератор"),
                         ("x", JVal.vnum x),
                         ("y", JVal.vnum y),
                         ("rolled", JVal.vbool false),
                         ("in_resource", JVal.vstr "nothing"),
                         ("out_resource", JVal.vstr "nothing"),
                         ("in_per_out", JVal.vnum 1)],
              onDelete := stdOnDelete,
              onParamChange := stdOnParamChange,
              onLabelChange := stdOnLabelChange,
              onArchetypeChange := stdOnArchetypeChange,
              requestResources := stdRequestResources,
              getResourceColor := stdGetResourceColor,
              resourceOptions := resources } }

/-- Phase one of `handleAddNode`: append the optimistic node to the mirror. -/
def handleAddNodeLocal (uid : String) (x y : Int) (resources : List ResourceItem)
    (s : GraphMirror) : GraphMirror :=
  { s with nodes := s.nodes ++ [optimisticNode uid x y resources] }

/-- The `catch` of `handleAddNode`: a single `console.warn`, no mirror write. -/
def handleAddNodeFailure (s : GraphMirror) : GraphMirror :=
  { s with log := s.log ++ ["Add node: не удалось синкнуть с API (/node/add)."] }

/-- The synchronous mirror mutation of `handleDeleteNode` on the combined state. -/
def handleDeleteNodeLocal (uid : String) (s : GraphMirror) : GraphMirror :=
  { s with nodes := (handleDeleteNode uid s.nodes s.edges).1,
           edges := (handleDeleteNode uid s.nodes s.edges).2.1 }

/-- The `.catch` of a `/node/remove` call: a single `console.error`. -/
def nodeRemoveFailure (s : GraphMirror) : GraphMirror :=
  { s with log := s.log ++ ["Failed to call /node/remove"] }

/-- The `.catch` of a `/connection/remove` call: a single `console.error`. -/
def connectionRemoveFailure (s : GraphMirror) : GraphMirror :=
  { s with log := s.log ++ ["Failed to call /connection/remove"] }

/-- The `.catch` of a `/connection/add` call: a single `console.error`. -/
def connectionAddFailure (s : GraphMirror) : GraphMirror :=
  { s with log := s.log ++ ["Failed to call /connection/add"] }

/-- The synchronous mirror mutation of `onEdgeClick` (disconnect). -/
def onEdgeClickLocal (edgeId : String) (s : GraphMirror) : GraphMirror :=
  { s with edges := s.edges.filter (fun e => e.id != edgeId) }

/-- The synchronous mirror mutation of `onConnect` on the combined state. -/
def onConnectLocal (uid : String) (c : ConnInput) (s : GraphMirror) : GraphMirror :=
  { s with edges := (onConnect uid s.edges c).edges }

/-! ## Concrete sample inputs used by counterexamples and witnesses -/

/-- An existing mirror edge occupying (node `A`, `io-right-source`). -/
def sampleEdge2 : REdge :=
  { id := "e1", source := "A", target := "B",
    sourceHandle := some "io-right-source", targetHandle := some "io-left-target",
    edata := [] }

/-- A connect gesture reusing the occupied (node `A`, `io-right-source`) anchor. -/
def sampleConn2 : ConnInput :=
  { source := some "A", target := some "C",
    sourceHandle := some "io-right-source", targetHandle := some "io-top-target" }

/-- A mirror node collapsed locally (`rolled: true`) with attached callbacks. -/
def sampleNode4 : RFNode :=
  { id := "n1", x := 0, y := 0,
    data := { label := "L", archetype := some "генератор",
              params := [("uid", JVal.vstr "n1"), ("rolled", JVal.vbool true)],
              onDelete := some 1, onParamChange := some 2, onLabelChange := some 3,
              onArchetypeChange := some 4, requestResources := some 5,
              getResourceColor := some 6, resourceOptions := [] } }

/-- A server response to a single-parameter update that omits `rolled`. -/
def sampleBackend4 : BackendNode :=
  { uid := "n1", name := none,
    data := [("archetype", JVal.vstr "генератор"), ("enabled", JVal.vbool true)] }

/-- An existing mirror edge occupying (node `B`, `io-left-target`). -/
def sampleEdge9 : REdge :=
  { id := "e0", source := "B0", target := "B",
    sourceHandle := some "io-right-source", targetHandle := some "io-left-target",
    edata := [] }

/-- A connect gesture with a null source handle whose target anchor is occupied. -/
def sampleConn9 : ConnInput :=
  { source := some "A", target := some "B",
    sourceHandle := none, targetHandle := some "io-left-target" }

/-- A server node carrying a numeric `x` but no `y` coordinate. -/
def sampleBackend10 : BackendNode :=
  { uid := "n7", name := none,
    data := [("archetype", JVal.vstr "генератор"), ("x", JVal.vnum 777)] }

/-- C6: Handle-Direction codec round-trip. Every one of the four directions
survives encoding to a source handle (resp. target handle) and decoding
back; the role is reconstructed in the handle suffix (`-source` vs
`-target`); an absent handle and a handle containing none of the four side
words decode to the default `"right"`. -/
theorem claim_C6_codec_roundtrip :
    (∀ d ∈ (["up", "down", "left", "right"] : List String),
      mapHandleToDir (some (dirToSourceHandle d)) = d ∧
      mapHandleToDir (some (dirToTargetHandle d)) = d ∧
      List.isSuffixOf "-source".toList (dirToSourceHandle d).toList = true ∧
      List.isSuffixOf "-target".toList (dirToTargetHandle d).toList = true) ∧
    mapHandleToDir none = "right" ∧
    (∀ s : String, jsIncludes s "top" = false → jsIncludes s "bottom" = false →
      jsIncludes s "left" = false → jsIncludes s "right" = false →
      mapHandleToDir (some s) = "right") := by
  refine ⟨?_, by decide, ?_⟩
  · intro d hd
    simp only [List.mem_cons, List.mem_singleton, List.not_mem_nil, or_false] at hd
    rcases hd with h | h | h | h <;> subst h <;> exact ⟨by decide, by decide, by decide, by decide⟩
  · intro s h1 h2 h3 h4
    by_cases hs : s = ""
    · simp [mapHandleToDir, hs]
    · simp [mapHandleToDir, hs, h1, h2, h3, h4]

/-- Witness for C6 at concrete inputs: the round-trip at `"up"` and the
fallback at the unrecognized handle `"weird"`. -/
theorem claim_C6_codec_roundtrip_witness :
    ("up" ∈ (["up", "down", "left", "right"] : List String) ∧
      mapHandleToDir (some (dirToSourceHandle "up")) = "up") ∧
    (jsIncludes "weird" "top" = false ∧ mapHandleToDir (some "weird") = "right") :=
  ⟨⟨by decide, (claim_C6_codec_roundtrip.1 "up" (by decide)).1⟩,
   ⟨by decide, claim_C6_codec_roundtrip.2.2 "weird" (by decide) (by decide) (by decide) (by decide)⟩⟩

/-- Helper: filtering away the entries named `"nothing"` leaves no entry
named `"nothing"`. -/
theorem filter_ne_nothing_clean (l : List ResourceItem) :
    (l.filter (fun r => r.name != "nothing")).filter (fun r => r.name == "nothing") = [] := by
  induction l with
  | nil => rfl
  | cons a t ih =>
    by_cases h : a.name = "nothing" <;> simp [h, ih]

/-- C7: for every payload shape, the normalized resource list starts with
the sentinel `"nothing"`, contains an entry named `"nothing"` exactly once,
and its remaining entries are exactly the collected entries of the raw
payload in their original relative order. -/
theorem claim_C7_sentinel_normalization (payload : RPayload) :
    (normalizeResources payload).head? = some NOTHING_RESOURCE ∧
    ((normalizeResources payload).filter (fun r => r.name == "nothing")).length = 1 ∧
    (normalizeResources payload).filter (fun r => r.name != "nothing")
      = (collectResources payload).filter (fun r => r.name != "nothing") := by
  unfold normalizeResources
  by_cases h : (collectResources payload).any (fun r => r.name == NOTHING_RESOURCE.name) = true
  · refine ⟨by simp [h], ?_, ?_⟩
    · simp only [h, if_true]
      have hclean := filter_ne_nothing_clean (collectResources payload)
      simp [List.filter, NOTHING_RESOURCE, hclean]
    · simp only [h, if_true]
      have hclean : ∀ r ∈ (collectResources payload).filter (fun r => r.name != "nothing"),
          (fun r : ResourceItem => r.name != "nothing") r = true := fun r hr =>
        (List.mem_filter.mp hr).2
      simp [List.filter, NOTHING_RESOURCE, List.filter_eq_self.mpr hclean]
  · have hnone : ∀ r ∈ collectResources payload, ¬ (r.name == "nothing") = true := by
      intro r hr
      have := List.any_eq_false.mp (Bool.eq_false_iff.mpr h) r hr
      simpa [NOTHING_RESOURCE] using this
    refine ⟨by simp [h], ?_, ?_⟩
    · simp only [h, if_false]
      have : (collectResources payload).filter (fun r => r.name == "nothing") = [] := by
        simp only [List.filter_eq_nil_iff]
        exact hnone
      simp [List.filter, NOTHING_RESOURCE, this]
    · simp only [h, if_false]
      have hall : ∀ r ∈ collectResources payload,
          (fun r : ResourceItem => r.name != "nothing") r = true := by
        intro r hr
        simpa [bne] using (hnone r hr)
      simp [List.filter, NOTHING_RESOURCE, List.filter_eq_self.mpr hall]

/-! ## Record lookup lemmas -/

/-- Lookup distributes over append: the left record wins. -/
theorem lookupRec_append (a b : Rec) (k : String) :
    lookupRec (a ++ b) k
      = match lookupRec a k with
        | some v => some v
        | none => lookupRec b k := by
  induction a with
  | nil => rfl
  | cons kv t ih =>
    obtain ⟨k₁, v₁⟩ := kv
    by_cases h : k₁ = k <;> simp [lookupRec, h, ih]

/-- Lookup through the override map of `mergeRec`. -/
theorem lookupRec_map_override (a b : Rec) (k : String) :
    lookupRec (a.map (fun kv =>
      match lookupRec b kv.1 with
      | some v => (kv.1, v)
      | none => kv)) k
      = (lookupRec a k).map (fun v => (lookupRec b k).getD v) := by
  induction a with
  | nil => rfl
  | cons kv t ih =>
    obtain ⟨k₁, v₁⟩ := kv
    by_cases h : k₁ = k
    · subst h
      cases hb : lookupRec b k₁ <;> simp [lookupRec, hb]
    · cases hb : lookupRec b k₁ <;> simp [lookupRec, h, hb, ih]

/-- Lookup through the keep-new-keys filter of `mergeRec`. -/
theorem lookupRec_filter_isNone (a b : Rec) (k : String) :
    lookupRec (b.filter (fun kv => (lookupRec a kv.1).isNone)) k
      = if (lookupRec a k).isNone then lookupRec b k else none := by
  induction b with
  | nil => simp [lookupRec]
  | cons kv t ih =>
    obtain ⟨k₁, v₁⟩ := kv
    by_cases h : k₁ = k
    · subst h
      cases ha : (lookupRec a k₁).isNone <;> simp [lookupRec, List.filter, ha, ih]
    · cases ha : (lookupRec a k₁).isNone <;> simp [lookupRec, List.filter, h, ha, ih]

/-- Master lemma: `mergeRec` realizes JavaScript spread for lookups — the
right record wins, the left is the fallback. -/
theorem lookupRec_mergeRec (a b : Rec) (k : String) :
    lookupRec (mergeRec a b) k
      = match lookupRec b k with
        | some v => some v
        | none => lookupRec a k := by
  unfold mergeRec
  rw [lookupRec_append, lookupRec_map_override, lookupRec_filter_isNone]
  cases ha : lookupRec a k <;> cases hb : lookupRec b k <;> simp [ha, hb]

/-! ## Claim theorems -/

/-- C1: when a second world load starts before an earlier one finishes,
the earlier load's results never reach the mirror: after both loads settle
— in either completion order — the mirror's node and edge sets are exactly
those decoded from the most recently initiated load's responses. -/
theorem claim_C1_load_cancellation (s0 : LoaderMirror)
    (rA rB : List ResourceItem) (nA nB : List BackendNode)
    (cA cB : List BackendConnection) :
    ((finishLoad (startLoad s0).1 rA nA cA
        (finishLoad (startLoad (startLoad s0).2).1 rB nB cB
          (startLoad (startLoad s0).2).2)).nodes = loadNodes rB nB ∧
     (finishLoad (startLoad s0).1 rA nA cA
        (finishLoad (startLoad (startLoad s0).2).1 rB nB cB
          (startLoad (startLoad s0).2).2)).edges = loadEdges cB) ∧
    ((finishLoad (startLoad (startLoad s0).2).1 rB nB cB
        (finishLoad (startLoad s0).1 rA nA cA
          (startLoad (startLoad s0).2).2)).nodes = loadNodes rB nB ∧
     (finishLoad (startLoad (startLoad s0).2).1 rB nB cB
        (finishLoad (startLoad s0).1 rA nA cA
          (startLoad (startLoad s0).2).2)).edges = loadEdges cB) := by
  have hne : (s0.loadToken + 1 == s0.loadToken + 1 + 1) = false := by
    simp
  simp [startLoad, finishLoad, hne]

/-- C2: a connect gesture whose source anchor pair or target anchor pair is
already occupied by an existing mirror edge changes nothing: the edge set
is unchanged, no `/connection/add` request is issued, and the warning is
surfaced. -/
theorem claim_C2_connect_occupied_noop (uid : String) (edges : List REdge) (c : ConnInput)
    (h : (∃ ns hs, c.source = some ns ∧ ns ≠ "" ∧ c.sourceHandle = some hs ∧ hs ≠ "" ∧
            ∃ e, e ∈ edges ∧ e.source = ns ∧ e.sourceHandle = some hs) ∨
         (∃ nt ht, c.target = some nt ∧ nt ≠ "" ∧ c.targetHandle = some ht ∧ ht ≠ "" ∧
            ∃ e, e ∈ edges ∧ e.target = nt ∧ e.targetHandle = some ht)) :
    (onConnect uid edges c).edges = edges ∧
    (onConnect uid edges c).request = none ∧
    (onConnect uid edges c).warned = true := by
  have hconf : (hasSourceConflict edges c || hasTargetConflict edges c) = true := by
    rcases h with ⟨ns, hs, hsrc, hns, hsh, hhs, e, he, hes, hesh⟩ |
      ⟨nt, ht, htg, hnt, hth, hht, e, he, het, heth⟩
    · have hsT : hasSourceConflict edges c = true := by
        simp only [hasSourceConflict, hsrc, hsh, truthyS, Bool.and_eq_true, bne_iff_ne,
          ne_eq, List.any_eq_true]
        exact ⟨⟨hns, hhs⟩, e, he, by simp [hes, hesh]⟩
      simp [hsT]
    · have htT : hasTargetConflict edges c = true := by
        simp only [hasTargetConflict, htg, hth, truthyS, Bool.and_eq_true, bne_iff_ne,
          ne_eq, List.any_eq_true]
        exact ⟨⟨hnt, hht⟩, e, he, by simp [het, heth]⟩
      simp [htT]
  simp [onConnect, hconf]

/-- Witness for C2 at a concrete mirror: the source anchor of `sampleConn2`
is already occupied by `sampleEdge2`, so the connect call is a no-op. -/
theorem claim_C2_connect_occupied_noop_witness :
    (onConnect "u1" [sampleEdge2] sampleConn2).edges = [sampleEdge2] ∧
    (onConnect "u1" [sampleEdge2] sampleConn2).request = none ∧
    (onConnect "u1" [sampleEdge2] sampleConn2).warned = true :=
  claim_C2_connect_occupied_noop "u1" [sampleEdge2] sampleConn2
    (Or.inl ⟨"A", "io-right-source", rfl, by decide, rfl, by decide,
      sampleEdge2, by decide, rfl, rfl⟩)

/-- C3: deleting a node removes from the mirror the node and exactly the
edges touching it (no dangling edge remains, no untouched edge or foreign
node is lost), and the returned request list holds one `/connection/remove`
per cascaded edge plus one `/node/remove`. The mirror sets are computed
before the request list is dispatched. -/
theorem claim_C3_delete_cascade (uid : String) (nodes : List RFNode) (edges : List REdge) :
    (∀ e ∈ (handleDeleteNode uid nodes edges).2.1, e.source ≠ uid ∧ e.target ≠ uid) ∧
    (∀ e ∈ edges, e.source ≠ uid → e.target ≠ uid →
      e ∈ (handleDeleteNode uid nodes edges).2.1) ∧
    (∀ e ∈ (handleDeleteNode uid nodes edges).2.1, e ∈ edges) ∧
    (∀ n ∈ (handleDeleteNode uid nodes edges).1, n.id ≠ uid) ∧
    (∀ n ∈ nodes, n.id ≠ uid → n ∈ (handleDeleteNode uid nodes edges).1) ∧
    (∀ n ∈ (handleDeleteNode uid nodes edges).1, n ∈ nodes) ∧
    (handleDeleteNode uid nodes edges).2.2.length
      = (edges.filter (fun e => e.source == uid || e.target == uid)).length + 1 ∧
    (∀ e ∈ edges, (e.source = uid ∨ e.target = uid) →
      ApiRequest.connectionRemove e.id ∈ (handleDeleteNode uid nodes edges).2.2) ∧
    ApiRequest.nodeRemove uid ∈ (handleDeleteNode uid nodes edges).2.2 := by
  refine ⟨?_, ?_, ?_, ?_, ?_, ?_, ?_, ?_, ?_⟩
  · intro e he
    have := (List.mem_filter.mp he).2
    simpa [handleDeleteNode] using this
  · intro e he h1 h2
    exact List.mem_filter.mpr ⟨he, by simp [h1, h2]⟩
  · intro e he
    exact (List.mem_filter.mp he).1
  · intro n hn
    have := (List.mem_filter.mp hn).2
    simpa [handleDeleteNode] using this
  · intro n hn h1
    exact List.mem_filter.mpr ⟨hn, by simp [h1]⟩
  · intro n hn
    exact (List.mem_filter.mp hn).1
  · simp [handleDeleteNode]
  · intro e he htouch
    refine List.mem_append.mpr (Or.inl ?_)
    refine List.mem_map.mpr ⟨e, List.mem_filter.mpr ⟨he, ?_⟩, rfl⟩
    rcases htouch with h | h <;> simp [h]
  · exact List.mem_append.mpr (Or.inr (by simp))

/-- Witness for C3 at a concrete mirror: deleting node `A` keeps the
untouched edge between `C` and `D`, keeps node `C`, and schedules the
removal of the cascaded edge `e1`. -/
theorem claim_C3_delete_cascade_witness :
    (({ id := "e2", source := "C", target := "D", sourceHandle := none,
        targetHandle := none, edata := [] } : REdge)
      ∈ (handleDeleteNode "A"
          [{ id := "C", x := 0, y := 0, data := sampleNode4.data }]
          [sampleEdge2,
           { id := "e2", source := "C", target := "D", sourceHandle := none,
             targetHandle := none, edata := [] }]).2.1) ∧
    ApiRequest.connectionRemove "e1"
      ∈ (handleDeleteNode "A"
          [{ id := "C", x := 0, y := 0, data := sampleNode4.data }]
          [sampleEdge2,
           { id := "e2", source := "C", target := "D", sourceHandle := none,
             targetHandle := none, edata := [] }]).2.2 :=
  ⟨(claim_C3_delete_cascade "A" _ _).2.1 _ (by decide) (by decide) (by decide),
   (claim_C3_delete_cascade "A" _ _).2.2.2.2.2.2.2.1 sampleEdge2 (by decide)
     (Or.inl (by decide))⟩

/-- C5: a tick response never changes the mirror's node id list (snapshots
for unknown ids are ignored, no implicit creation), and every local node
matched by no returned snapshot is left entirely untouched. -/
theorem claim_C5_tick_no_creation (payload : List BackendNode) (nodes : List RFNode) :
    (handleTickSuccess payload nodes).map RFNode.id = nodes.map RFNode.id ∧
    (∀ node ∈ nodes, (∀ b ∈ payload, b.uid ≠ node.id) →
      node ∈ handleTickSuccess payload nodes) := by
  constructor
  · unfold handleTickSuccess
    rw [List.map_map]
    apply List.map_congr_left
    intro n _
    show (tickMergeOne payload n).id = n.id
    unfold tickMergeOne
    cases payload.find? (fun b => b.uid == n.id) <;> simp [mergeServerNode]
  · intro node hn hnone
    have hfind : payload.find? (fun b => b.uid == node.id) = none :=
      List.find?_eq_none.mpr (fun b hb => by simpa using hnone b hb)
    have hfix : tickMergeOne payload node = node := by
      simp [tickMergeOne, hfind]
    exact hfix ▸ List.mem_map_of_mem (tickMergeOne payload) hn

/-- Helper: the normalized server snapshot always carries a `rolled`
parameter — the mapper injects a default when the server omits it. -/
theorem mapped_params_rolled_isSome (b : BackendNode) :
    (lookupRec (mapBackendNodeToData b).params "rolled").isSome = true := by
  unfold mapBackendNodeToData
  simp only
  rw [lookupRec_mergeRec, lookupRec_mergeRec]
  cases h : lookupRec (removeKeys ["x", "y"]
      (removeKeys ["archetype", "connections"] b.data)) "rolled" <;>
    simp [h, lookupRec]

/-- C4 counterexample: a node collapsed locally (`rolled: true`) loses its
collapsed flag when the success response of a single-parameter update omits
`rolled` — the normalized snapshot injects `rolled: false` and the merge
lets the snapshot win, so the UI-only flag is not preserved. -/
theorem claim_C4_counterexample :
    lookupRec sampleNode4.data.params "rolled" = some (JVal.vbool true) ∧
    (handleParamChangeSuccess "n1" sampleBackend4 [sampleNode4]).map
      (fun n => lookupRec n.data.params "rolled") = [some (JVal.vbool false)] := by
  decide

/-- C4 (amended): the success merge overlays server fields onto the
existing local node rather than replacing it wholesale — the attached UI
callbacks and every local param key absent from the normalized server
snapshot survive; the `rolled` flag, however, always takes the normalized
snapshot's value (false when the server omits it), so it survives only when
the server echoes it. -/
theorem claim_C4_merge_overlay (uid : String) (b : BackendNode)
    (nodes : List RFNode) (n : RFNode) (hmem : n ∈ nodes) (hid : n.id = uid) :
    ∃ n₁, n₁ ∈ handleParamChangeSuccess uid b nodes ∧
      n₁.id = n.id ∧
      n₁.data.onDelete = n.data.onDelete ∧
      n₁.data.onParamChange = n.data.onParamChange ∧
      n₁.data.onLabelChange = n.data.onLabelChange ∧
      n₁.data.onArchetypeChange = n.data.onArchetypeChange ∧
      n₁.data.requestResources = n.data.requestResources ∧
      n₁.data.getResourceColor = n.data.getResourceColor ∧
      n₁.data.resourceOptions = n.data.resourceOptions ∧
      (∀ k, lookupRec (mapBackendNodeToData b).params k = none →
        lookupRec n₁.data.params k = lookupRec n.data.params k) ∧
      lookupRec n₁.data.params "rolled"
        = lookupRec (mapBackendNodeToData b).params "rolled" := by
  refine ⟨mergeServerNode n (mapBackendNodeToData b), ?_, rfl, rfl, rfl, rfl, rfl,
    rfl, rfl, rfl, ?_, ?_⟩
  · have hone : (fun m => if m.id = uid
        then mergeServerNode m (mapBackendNodeToData b) else m) n
        = mergeServerNode n (mapBackendNodeToData b) := by
      simp [hid]
    exact hone ▸ List.mem_map_of_mem _ hmem
  · intro k hk
    simp [mergeServerNode, lookupRec_mergeRec, hk]
  · obtain ⟨v, hv⟩ := Option.isSome_iff_exists.mp (mapped_params_rolled_isSome b)
    simp [mergeServerNode, lookupRec_mergeRec, hv]

/-- Witness for C4 (amended) at a concrete node and server response. -/
theorem claim_C4_merge_overlay_witness :
    sampleNode4 ∈ [sampleNode4] ∧ sampleNode4.id = "n1" ∧
    (∃ n₁, n₁ ∈ handleParamChangeSuccess "n1" sampleBackend4 [sampleNode4] ∧
      n₁.id = sampleNode4.id ∧
      n₁.data.onDelete = sampleNode4.data.onDelete ∧
      n₁.data.onParamChange = sampleNode4.data.onParamChange ∧
      n₁.data.onLabelChange = sampleNode4.data.onLabelChange ∧
      n₁.data.onArchetypeChange = sampleNode4.data.onArchetypeChange ∧
      n₁.data.requestResources = sampleNode4.data.requestResources ∧
      n₁.data.getResourceColor = sampleNode4.data.getResourceColor ∧
      n₁.data.resourceOptions = sampleNode4.data.resourceOptions ∧
      (∀ k, lookupRec (mapBackendNodeToData sampleBackend4).params k = none →
        lookupRec n₁.data.params k = lookupRec sampleNode4.data.params k) ∧
      lookupRec n₁.data.params "rolled"
        = lookupRec (mapBackendNodeToData sampleBackend4).params "rolled") :=
  ⟨by decide, rfl,
   claim_C4_merge_overlay "n1" sampleBackend4 [sampleNode4] sampleNode4 (by decide) rfl⟩

/-- C8: for each optimistic mutation — node add, node delete, disconnect,
connect — the transport-failure continuation of the follow-up server call
(the `catch` handler, a bare console log) leaves the mirror exactly at its
post-mutation state: nothing is rolled back, the optimistic change stays. -/
theorem claim_C8_no_rollback (s : GraphMirror) (uid : String) (x y : Int)
    (rs : List ResourceItem) (nid eid cuid : String) (c : ConnInput) :
    ((handleAddNodeFailure (handleAddNodeLocal uid x y rs s)).nodes
        = (handleAddNodeLocal uid x y rs s).nodes ∧
     (handleAddNodeFailure (handleAddNodeLocal uid x y rs s)).edges
        = (handleAddNodeLocal uid x y rs s).edges ∧
     optimisticNode uid x y rs
        ∈ (handleAddNodeFailure (handleAddNodeLocal uid x y rs s)).nodes) ∧
    ((connectionRemoveFailure (nodeRemoveFailure (handleDeleteNodeLocal nid s))).nodes
        = (handleDeleteNodeLocal nid s).nodes ∧
     (connectionRemoveFailure (nodeRemoveFailure (handleDeleteNodeLocal nid s))).edges
        = (handleDeleteNodeLocal nid s).edges ∧
     (∀ n ∈ (connectionRemoveFailure (nodeRemoveFailure
        (handleDeleteNodeLocal nid s))).nodes, n.id ≠ nid)) ∧
    ((connectionRemoveFailure (onEdgeClickLocal eid s)).nodes
        = (onEdgeClickLocal eid s).nodes ∧
     (connectionRemoveFailure (onEdgeClickLocal eid s)).edges
        = (onEdgeClickLocal eid s).edges ∧
     (∀ e ∈ (connectionRemoveFailure (onEdgeClickLocal eid s)).edges, e.id ≠ eid)) ∧
    ((connectionAddFailure (onConnectLocal cuid c s)).nodes
        = (onConnectLocal cuid c s).nodes ∧
     (connectionAddFailure (onConnectLocal cuid c s)).edges
        = (onConnectLocal cuid c s).edges ∧
     (∀ sN tN, hasSourceConflict s.edges c = false → hasTargetConflict s.edges c = false →
        c.source = some sN → c.target = some tN → sN ≠ "" → tN ≠ "" →
        connectionExistsB s.edges c = false →
        ({ id := cuid, source := sN, target := tN, sourceHandle := c.sourceHandle,
           targetHandle := c.targetHandle, edata := [] } : REdge)
          ∈ (connectionAddFailure (onConnectLocal cuid c s)).edges)) := by
  refine ⟨⟨rfl, rfl, ?_⟩, ⟨rfl, rfl, ?_⟩, ⟨rfl, rfl, ?_⟩, ⟨rfl, rfl, ?_⟩⟩
  · simp [handleAddNodeFailure, handleAddNodeLocal]
  · intro n hn
    simp [connectionRemoveFailure, nodeRemoveFailure, handleDeleteNodeLocal,
      handleDeleteNode, List.mem_filter] at hn
    exact hn.2
  · intro e he
    simp [connectionRemoveFailure, onEdgeClickLocal, List.mem_filter] at he
    exact he.2
  · intro sN tN hsc htc hsrc htg hsN htN hdup
    have hsN' : (sN == "") = false := by simp [hsN]
    have htN' : (tN == "") = false := by simp [htN]
    simp [connectionAddFailure, onConnectLocal, onConnect, hsc, htc, addEdgeLib,
      hsrc, htg, hsN', htN', hdup]

/-- Witness for C8 at a concrete mirror: after a failed `/connection/add`,
the optimistically added edge from `A` to `C` is still in the mirror. -/
theorem claim_C8_no_rollback_witness :
    ({ id := "u2", source := "A", target := "C",
       sourceHandle := some "io-top-source", targetHandle := some "io-top-target",
       edata := [] } : REdge)
      ∈ (connectionAddFailure (onConnectLocal "u2"
          { source := some "A", target := some "C",
            sourceHandle := some "io-top-source", targetHandle := some "io-top-target" }
          { nodes := [], edges := [sampleEdge2], log := [] })).edges :=
  (claim_C8_no_rollback { nodes := [], edges := [sampleEdge2], log := [] }
      "u0" 0 0 [] "n0" "e0" "u2"
      { source := some "A", target := some "C",
        sourceHandle := some "io-top-source", targetHandle := some "io-top-target" }
    ).2.2.2.2.2 "A" "C" (by decide) (by decide) rfl rfl (by decide) (by decide) (by decide)

/-- C9 counterexample: a connect request whose source handle is null is
nevertheless dropped entirely — no edge is created and no request issued —
when its target anchor pair is occupied, contradicting the unconditional
"the edge is created" reading of the claim. -/
theorem claim_C9_counterexample :
    sampleConn9.sourceHandle = none ∧
    (onConnect "u1" [sampleEdge9] sampleConn9).edges = [sampleEdge9] ∧
    (onConnect "u1" [sampleEdge9] sampleConn9).request = none := by
  decide

/-- C9 (amended): a null / absent / empty endpoint field disables that
endpoint's occupancy check, so a null-handled endpoint is never rejected as
occupied; and provided the other endpoint's check passes, both endpoint
node ids are truthy and no identical connection already exists, the edge is
created and the null-handled endpoint's direction is encoded as the default
`"right"` in the `/connection/add` request. -/
theorem claim_C9_null_handle (uid : String) (edges : List REdge) (c : ConnInput) :
    (truthyS c.source = false → hasSourceConflict edges c = false) ∧
    (truthyS c.sourceHandle = false → hasSourceConflict edges c = false) ∧
    (truthyS c.target = false → hasTargetConflict edges c = false) ∧
    (truthyS c.targetHandle = false → hasTargetConflict edges c = false) ∧
    mapHandleToDir none = "right" ∧
    (∀ sN tN, hasSourceConflict edges c = false → hasTargetConflict edges c = false →
      c.source = some sN → c.target = some tN → sN ≠ "" → tN ≠ "" →
      connectionExistsB edges c = false →
      ({ id := uid, source := sN, target := tN, sourceHandle := c.sourceHandle,
         targetHandle := c.targetHandle, edata := [] } : REdge)
        ∈ (onConnect uid edges c).edges ∧
      (c.sourceHandle = none →
        (onConnect uid edges c).request
          = some (ApiRequest.connectionAdd uid sN tN "right"
              (mapHandleToDir c.targetHandle))) ∧
      (c.targetHandle = none →
        (onConnect uid edges c).request
          = some (ApiRequest.connectionAdd uid sN tN
              (mapHandleToDir c.sourceHandle) "right"))) := by
  refine ⟨?_, ?_, ?_, ?_, rfl, ?_⟩
  · intro h; simp [hasSourceConflict, h]
  · intro h; simp [hasSourceConflict, h]
  · intro h; simp [hasTargetConflict, h]
  · intro h; simp [hasTargetConflict, h]
  · intro sN tN hsc htc hsrc htg hsN htN hdup
    have hsN' : (sN == "") = false := by simp [hsN]
    have htN' : (tN == "") = false := by simp [htN]
    refine ⟨?_, ?_, ?_⟩
    · simp [onConnect, hsc, htc, addEdgeLib, hsrc, htg, hsN', htN', hdup]
    · intro hnull
      simp only [onConnect, hsc, htc, Bool.or_self, Bool.false_eq_true, if_false,
        hsrc, htg, hnull]
      simp [mapHandleToDir, hsN, htN]
    · intro hnull
      simp only [onConnect, hsc, htc, Bool.or_self, Bool.false_eq_true, if_false,
        hsrc, htg, hnull]
      simp [mapHandleToDir, hsN, htN]

/-- Witness for C9 (amended) at a concrete mirror: connecting from a null
source handle into a free target anchor creates the edge and encodes the
source direction as `"right"`. -/
theorem claim_C9_null_handle_witness :
    hasSourceConflict [sampleEdge9] sampleConn9 = false ∧
    (({ id := "u3", source := "A", target := "Z", sourceHandle := none,
        targetHandle := some "io-left-target", edata := [] } : REdge)
      ∈ (onConnect "u3" [sampleEdge9]
          { source := some "A", target := some "Z",
            sourceHandle := none, targetHandle := some "io-left-target" }).edges) ∧
    (onConnect "u3" [sampleEdge9]
        { source := some "A", target := some "Z",
          sourceHandle := none, targetHandle := some "io-left-target" }).request
      = some (ApiRequest.connectionAdd "u3" "A" "Z" "right"
          (mapHandleToDir (some "io-left-target"))) :=
  ⟨by decide,
   ((claim_C9_null_handle "u3" [sampleEdge9]
      { source := some "A", target := some "Z",
        sourceHandle := none, targetHandle := some "io-left-target" }).2.2.2.2.2
      "A" "Z" (by decide) (by decide) rfl rfl (by decide) (by decide) (by decide)).1,
   ((claim_C9_null_handle "u3" [sampleEdge9]
      { source := some "A", target := some "Z",
        sourceHandle := none, targetHandle := some "io-left-target" }).2.2.2.2.2
      "A" "Z" (by decide) (by decide) rfl rfl (by decide) (by decide) (by decide)).2.1 rfl⟩

/-- Helper: indexing the materialized node list of the world loader. -/
theorem loadNodesGo_getElem (resList : List ResourceItem) (l : List BackendNode) :
    ∀ (start i : Nat),
      (loadNodesGo resList start l)[i]? = (l[i]?).map (loadNode resList (start + i)) := by
  induction l with
  | nil => intro start i; simp [loadNodesGo]
  | cons bn rest ih =>
    intro start i
    cases i with
    | zero => simp [loadNodesGo]
    | succ j =>
      simp only [loadNodesGo, List.getElem?_cons_succ]
      rw [ih (start + 1) j]
      have harith : start + 1 + j = start + (j + 1) := by omega
      rw [harith]

/-- C10: a world load places the node at index `idx` of the server's node
array at exactly its numeric server coordinates when they are present, and
otherwise at the deterministic grid position
`x = 120 + (idx mod 5) * 280`, `y = 120 + (idx / 5) * 240`. -/
theorem claim_C10_grid_position (resList : List ResourceItem)
    (allNodes : List BackendNode) (idx : Nat) (bn : BackendNode)
    (h : allNodes[idx]? = some bn) :
    (∀ n : Int, lookupRec bn.data "x" = some (JVal.vnum n) →
      ((loadNodes resList allNodes)[idx]?).map RFNode.x = some n) ∧
    (asNum (lookupRec bn.data "x") = none →
      ((loadNodes resList allNodes)[idx]?).map RFNode.x
        = some (120 + (Int.ofNat (idx % 5)) * 280)) ∧
    (∀ n : Int, lookupRec bn.data "y" = some (JVal.vnum n) →
      ((loadNodes resList allNodes)[idx]?).map RFNode.y = some n) ∧
    (asNum (lookupRec bn.data "y") = none →
      ((loadNodes resList allNodes)[idx]?).map RFNode.y
        = some (120 + (Int.ofNat (idx / 5)) * 240)) := by
  have hget : (loadNodes resList allNodes)[idx]? = some (loadNode resList idx bn) := by
    unfold loadNodes
    rw [loadNodesGo_getElem resList allNodes 0 idx, h]
    simp
  refine ⟨?_, ?_, ?_, ?_⟩
  · intro n hx
    simp [hget, loadNode, hx, asNum]
  · intro hx
    simp [hget, loadNode, hx]
  · intro n hy
    simp [hget, loadNode, hy, asNum]
  · intro hy
    simp [hget, loadNode, hy]

/-- Witness for C10 at a concrete load: a node with a numeric `x` but no
`y` keeps its `x` coordinate and gets the grid `y` for index 0. -/
theorem claim_C10_grid_position_witness :
    ([sampleBackend10] : List BackendNode)[0]? = some sampleBackend10 ∧
    ((loadNodes [] [sampleBackend10])[0]?).map RFNode.x = some 777 ∧
    ((loadNodes [] [sampleBackend10])[0]?).map RFNode.y
      = some (120 + (Int.ofNat (0 / 5)) * 240) :=
  ⟨rfl,
   (claim_C10_grid_position [] [sampleBackend10] 0 sampleBackend10 rfl).1 777 (by decide),
   (claim_C10_grid_position [] [sampleBackend10] 0 sampleBackend10 rfl).2.2.2 (by decide)⟩

/-- Witness for C5 at a concrete mirror: a tick response holding only a
snapshot for the unknown id `ghost` leaves the known node untouched, and
the id list is unchanged. -/
theorem claim_C5_tick_no_creation_witness :
    (handleTickSuccess [{ uid := "ghost", name := none, data := [] }] [sampleNode4]).map
      RFNode.id = [sampleNode4].map RFNode.id ∧
    sampleNode4 ∈ handleTickSuccess [{ uid := "ghost", name := none, data := [] }]
      [sampleNode4] :=
  ⟨(claim_C5_tick_no_creation [{ uid := "ghost", name := none, data := [] }]
      [sampleNode4]).1,
   (claim_C5_tick_no_creation [{ uid := "ghost", name := none, data := [] }]
      [sampleNode4]).2 sampleNode4 (by decide) (by decide)⟩
